import Mathlib

/-
  Verification development for the Safe onboarding web demo.

  The repository is a React single-page application with two UI variants:
  * the multi-step variant (four operations: deploy Safe, set permissions,
    transfer tokens in, transfer tokens back to owner), and
  * the single-step variant (`src/App.tsx`, one `Onboard` button), whose
    network client wraps `readContract` in a Proxy.

  The definitions below are a shallow embedding of the repository's own
  logic: the per-step phase/result/error state, the synchronous prefix of
  every handler (guards and the state updates performed on entering the
  `running` phase), the asynchronous continuation applied when the
  operation settles, the wallet/chain-readiness negotiator
  `ensureWalletOnBase`, the button-disabled conditions of the rendered UI,
  the `readContract` proxy wrapper, and the `process.env` polyfill.

  External effects (wallet provider calls, the onboarding SDK) are
  modelled by environment records carrying their outcomes; chain-id reads
  on a given wallet-client handle are modelled as deterministic per handle
  (a refreshed handle carries its own values), matching the stale-handle
  behaviour the code is written to tolerate.
-/

namespace SafeOnboarding

/-- `base.id` from viem/chains: the required chain id (Base mainnet). -/
def baseId : Nat := 8453

/-- The four user-triggered operations of the multi-step UI. -/
inductive Step
  | deploy
  | permissions
  | transfer
  | transferBack
deriving DecidableEq, Repr

/-- Per-step lifecycle phase, `type StepPhase = 'idle' | 'running' | 'success' | 'error'`. -/
inductive StepPhase
  | idle
  | running
  | success
  | error
deriving DecidableEq, Repr

/-- Fields of `DeploySafeResult` that the app reads. -/
structure DeploySafeResult where
  safeAddress : String
  multiSendCallOnly : String
  transactionHash : String
deriving DecidableEq, Repr

/-- Fields of `SetPermissionsResult` that the app reads. -/
structure SetPermissionsResult where
  rolesAddress : String
  predictedProxyAddress : String
  transactionHash : String
deriving DecidableEq, Repr

/-- Fields of `TransferAssetResult` that the app reads. -/
structure TransferAssetResult where
  transactionHash : String
deriving DecidableEq, Repr

/-- The `useState` slots of the multi-step `App` component. -/
structure AppState where
  deployPhase : StepPhase
  permissionsPhase : StepPhase
  transferPhase : StepPhase
  transferBackPhase : StepPhase
  deployError : Option String
  permissionsError : Option String
  transferError : Option String
  transferBackError : Option String
  safeResult : Option DeploySafeResult
  permissionsResult : Option SetPermissionsResult
  transferResult : Option TransferAssetResult
  transferBackResult : Option TransferAssetResult
  transferBackSafeAddress : String
  transferAddress : String
  transferAmount : String
  transferBackAddress : String
  transferBackAmount : String
  activeStep : Option Step
deriving DecidableEq, Repr

/-- Initial component state: every phase `idle`, results and errors absent,
form fields empty, no active step. -/
def initialAppState : AppState where
  deployPhase := .idle
  permissionsPhase := .idle
  transferPhase := .idle
  transferBackPhase := .idle
  deployError := none
  permissionsError := none
  transferError := none
  transferBackError := none
  safeResult := none
  permissionsResult := none
  transferResult := none
  transferBackResult := none
  transferBackSafeAddress := ""
  transferAddress := ""
  transferAmount := ""
  transferBackAddress := ""
  transferBackAmount := ""
  activeStep := none

/-- Phase slot of a given step. -/
def phaseOf (s : AppState) : Step → StepPhase
  | .deploy => s.deployPhase
  | .permissions => s.permissionsPhase
  | .transfer => s.transferPhase
  | .transferBack => s.transferBackPhase

/-- Characters removed by the JavaScript `String.prototype.trim` (the
ASCII ones; the app's inputs are addresses and amounts). -/
def jsWhitespace (c : Char) : Bool :=
  c == ' ' || c == '\t' || c == '\n' || c == '\r'

/-- JavaScript `s.trim()`: strip whitespace from both ends. -/
def jsTrim (s : String) : String :=
  String.mk (((s.data.dropWhile jsWhitespace).reverse.dropWhile jsWhitespace).reverse)

/-- JavaScript `s.startsWith(pat)`. -/
def jsStartsWith (s pat : String) : Bool :=
  s.data.take pat.data.length == pat.data

/-- `!tokenAddress || !tokenAddress.startsWith('0x') || tokenAddress.length !== 42`,
the address-shape check applied to trimmed form inputs (`length` counted
in characters; the addresses at issue are ASCII). -/
def addrInputInvalid (a : String) : Bool :=
  a.isEmpty || !(jsStartsWith a "0x") || a.length != 42

/-- Truthiness of `safeResult?.safeAddress`: a deploy result is usable as a
prerequisite iff it is present and its `safeAddress` is a non-empty string. -/
def hasSafeAddress (r? : Option DeploySafeResult) : Bool :=
  match r? with
  | none => false
  | some r => !r.safeAddress.isEmpty

/- ## Wallet-client model and the chain-readiness negotiator -/

/-- A wallet-client handle as observed by `ensureWalletOnBase`:
`chain?.id`, the optional async `getChainId` accessor (resolving to a fixed
value per handle), the optional session-level `switchChain` (which either
resolves or rejects), and the optional active `account`. -/
structure WalletClient where
  chainField : Option Nat
  hasGetChainId : Bool
  getChainIdVal : Nat
  hasSwitchChain : Bool
  switchChainThrows : Bool
  account : Option String
deriving DecidableEq, Repr

/-- Environment of one handler run: availability of the public client and
the wallet client, the wagmi `switchChainAsync` / `refetchWalletClient`
hooks with their outcomes, and the outcome of each SDK operation
(`.error m` is a thrown value, `m = none` standing for a non-`Error`). -/
structure Env where
  publicClientAvailable : Bool
  walletClient : Option WalletClient
  hasSwitchChainAsync : Bool
  switchChainAsyncThrows : Bool
  switchChainAsyncErrMsg : String
  refetchAvailable : Bool
  refreshedClient : Option WalletClient
  sdkDeploy : Except (Option String) DeploySafeResult
  sdkSetPermissions : Except (Option String) SetPermissionsResult
  sdkTransfer : Except (Option String) TransferAssetResult
  sdkTransferBack : Except (Option String) TransferAssetResult

/-- `activeWalletClient.chain?.id ?? (typeof getChainId === 'function' ? await getChainId() : undefined)`. -/
def resolveChainId (c : WalletClient) : Option Nat :=
  match c.chainField with
  | some i => some i
  | none => if c.hasGetChainId then some c.getChainIdVal else none

/-- The errors `ensureWalletOnBase` can throw. -/
inductive EnsureErr
  | walletUnavailable
  | providerSwitchRejected (msg : String)
  | networkMismatch
  | accountMissing
deriving DecidableEq, Repr

/-- `message` of the thrown `Error`. -/
def EnsureErr.message : EnsureErr → String
  | .walletUnavailable => "Wallet client not available. Connect a wallet first."
  | .providerSwitchRejected msg => msg
  | .networkMismatch => "Please switch your wallet to the Base network and try again."
  | .accountMissing => "Wallet client must have an active account."

/-- Which provider interactions a run of `ensureWalletOnBase` performed. -/
structure EnsureLog where
  sessionSwitchAttempted : Bool
  providerSwitchAttempted : Bool
  refreshPerformed : Bool
deriving DecidableEq, Repr

/-- Final account check of `ensureWalletOnBase`. -/
def checkAccount (c : WalletClient) : Except EnsureErr WalletClient :=
  match c.account with
  | some _ => .ok c
  | none => .error .accountMissing

/-- The session-level `switchChain` attempt set `switched = true` iff the
method exists and its call did not reject. -/
def sessionSwitched (c : WalletClient) : Bool :=
  c.hasSwitchChain && !c.switchChainThrows

/-- The provider-level `switchChainAsync` is invoked iff the session-level
attempt did not set `switched` and the hook function exists. -/
def providerAttempted (env : Env) (c : WalletClient) : Bool :=
  !sessionSwitched c && env.hasSwitchChainAsync

/-- After a successful switch path, `refetchWalletClient` (if available) is
awaited and its `data`, when present, replaces the active handle.
Returns the active handle and whether a refresh was performed. -/
def postSwitchClient (env : Env) (c : WalletClient) : WalletClient × Bool :=
  let switched := sessionSwitched c || providerAttempted env c
  if switched && env.refetchAvailable then
    (match env.refreshedClient with
     | some r => r
     | none => c, true)
  else
    (c, false)

/-- Shallow embedding of `ensureWalletOnBase`: resolve the chain id; if it
already matches Base, check the account and return the handle unchanged;
otherwise try the session-level switch, fall back to the provider-level
switch (whose rejection propagates uncaught), refresh the handle after a
switch, re-resolve, and fail with the network-mismatch error if still
wrong. -/
def ensureWalletOnBase (env : Env) : EnsureLog × Except EnsureErr WalletClient :=
  match env.walletClient with
  | none => (⟨false, false, false⟩, .error .walletUnavailable)
  | some wc =>
    if resolveChainId wc = some baseId then
      (⟨false, false, false⟩, checkAccount wc)
    else
      if providerAttempted env wc && env.switchChainAsyncThrows then
        (⟨wc.hasSwitchChain, true, false⟩,
         .error (.providerSwitchRejected env.switchChainAsyncErrMsg))
      else
        let pc := postSwitchClient env wc
        if resolveChainId pc.1 ≠ some baseId then
          (⟨wc.hasSwitchChain, providerAttempted env wc, pc.2⟩, .error .networkMismatch)
        else
          (⟨wc.hasSwitchChain, providerAttempted env wc, pc.2⟩, checkAccount pc.1)

/- ## Handler entry stages (synchronous prefix up to entering `running`) -/

/-- `handleDeploySafe` up to its first `await`: the public-client guard,
then — on entering `running` — clear deploy's error and result and reset
every downstream step. Returns the updated state and whether the
operation entered `running`. -/
def enterDeploy (pc : Bool) (s : AppState) : AppState × Bool :=
  if !pc then
    ({ s with deployError := some "Public client not available.", deployPhase := .error }, false)
  else
    ({ s with
        activeStep := some .deploy
        deployPhase := .running
        deployError := none
        permissionsPhase := .idle
        permissionsError := none
        permissionsResult := none
        transferPhase := .idle
        transferError := none
        transferResult := none
        transferBackPhase := .idle
        transferBackError := none
        transferBackResult := none
        safeResult := none }, true)

/-- `handleSetPermissions` up to its first `await`: public-client guard,
deploy-result guard, then — on entering `running` — clear this step's
error and reset the two transfer steps (its own previous result is not
cleared). -/
def enterPermissions (pc : Bool) (s : AppState) : AppState × Bool :=
  if !pc then
    ({ s with permissionsError := some "Public client not available.", permissionsPhase := .error },
     false)
  else if !hasSafeAddress s.safeResult then
    ({ s with permissionsError := some "Deploy a Safe first.", permissionsPhase := .error }, false)
  else
    ({ s with
        activeStep := some .permissions
        permissionsPhase := .running
        permissionsError := none
        transferPhase := .idle
        transferError := none
        transferResult := none
        transferBackPhase := .idle
        transferBackError := none
        transferBackResult := none }, true)

/-- `handleTransfer` up to its first `await`: public-client guard,
deploy-result guard, token-address and amount validation on the trimmed
inputs, then entering `running` (clearing only this step's error). -/
def enterTransfer (pc : Bool) (s : AppState) : AppState × Bool :=
  if !pc then
    ({ s with transferError := some "Public client not available.", transferPhase := .error }, false)
  else if !hasSafeAddress s.safeResult then
    ({ s with transferError := some "Deploy a Safe first.", transferPhase := .error }, false)
  else if addrInputInvalid (jsTrim s.transferAddress) then
    ({ s with transferError := some "Enter a valid token address.", transferPhase := .error }, false)
  else if (jsTrim s.transferAmount).isEmpty then
    ({ s with
        transferError := some "Enter an amount (integer or hex string)."
        transferPhase := .error }, false)
  else
    ({ s with activeStep := some .transfer, transferPhase := .running, transferError := none }, true)

/-- `handleTransferBack` up to its first `await`: public-client guard, then
validation of the manually supplied Safe address, the token address and
the amount (all trimmed), then entering `running` (clearing only this
step's error). There is no deploy-result guard. -/
def enterTransferBack (pc : Bool) (s : AppState) : AppState × Bool :=
  if !pc then
    ({ s with
        transferBackError := some "Public client not available."
        transferBackPhase := .error }, false)
  else if addrInputInvalid (jsTrim s.transferBackSafeAddress) then
    ({ s with
        transferBackError := some "Enter a valid Safe address."
        transferBackPhase := .error }, false)
  else if addrInputInvalid (jsTrim s.transferBackAddress) then
    ({ s with
        transferBackError := some "Enter a valid token address."
        transferBackPhase := .error }, false)
  else if (jsTrim s.transferBackAmount).isEmpty then
    ({ s with
        transferBackError := some "Enter an amount (integer or hex string)."
        transferBackPhase := .error }, false)
  else
    ({ s with
        activeStep := some .transferBack
        transferBackPhase := .running
        transferBackError := none }, true)

/-- Entry stage of a given step. -/
def enterStep (pc : Bool) : Step → AppState → AppState × Bool
  | .deploy => enterDeploy pc
  | .permissions => enterPermissions pc
  | .transfer => enterTransfer pc
  | .transferBack => enterTransferBack pc

/- ## Handler continuation stages (after the awaits settle) -/

/-- How a started operation settles: the negotiator threw (an `Error`
carrying `msg`), or the SDK call resolved with `r`, or the SDK call threw
(`m = none` standing for a thrown non-`Error` value). -/
inductive OpOutcome (R : Type)
  | ensureFailed (msg : String)
  | sdkOk (r : R)
  | sdkFailed (m : Option String)
deriving DecidableEq, Repr

/-- Whether the SDK operation (client construction and method call) was
reached: it is skipped exactly when the negotiator threw. -/
def OpOutcome.sdkReached {R : Type} : OpOutcome R → Bool
  | .ensureFailed _ => false
  | .sdkOk _ => true
  | .sdkFailed _ => true

/-- `try`/`catch`/`finally` tail of `handleDeploySafe`. -/
def finishDeploy (o : OpOutcome DeploySafeResult) (s : AppState) : AppState :=
  match o with
  | .ensureFailed msg =>
    { s with deployError := some msg, deployPhase := .error, activeStep := none }
  | .sdkOk r =>
    { s with safeResult := some r, deployPhase := .success, activeStep := none }
  | .sdkFailed m =>
    { s with
        deployError := some (m.getD "Failed to deploy Safe.")
        deployPhase := .error
        activeStep := none }

/-- `try`/`catch`/`finally` tail of `handleSetPermissions`. -/
def finishPermissions (o : OpOutcome SetPermissionsResult) (s : AppState) : AppState :=
  match o with
  | .ensureFailed msg =>
    { s with permissionsError := some msg, permissionsPhase := .error, activeStep := none }
  | .sdkOk r =>
    { s with permissionsResult := some r, permissionsPhase := .success, activeStep := none }
  | .sdkFailed m =>
    { s with
        permissionsError := some (m.getD "Failed to set permissions.")
        permissionsPhase := .error
        activeStep := none }

/-- `try`/`catch`/`finally` tail of `handleTransfer`. -/
def finishTransfer (o : OpOutcome TransferAssetResult) (s : AppState) : AppState :=
  match o with
  | .ensureFailed msg =>
    { s with transferError := some msg, transferPhase := .error, activeStep := none }
  | .sdkOk r =>
    { s with transferResult := some r, transferPhase := .success, activeStep := none }
  | .sdkFailed m =>
    { s with
        transferError := some (m.getD "Token transfer failed.")
        transferPhase := .error
        activeStep := none }

/-- `try`/`catch`/`finally` tail of `handleTransferBack`. -/
def finishTransferBack (o : OpOutcome TransferAssetResult) (s : AppState) : AppState :=
  match o with
  | .ensureFailed msg =>
    { s with transferBackError := some msg, transferBackPhase := .error, activeStep := none }
  | .sdkOk r =>
    { s with transferBackResult := some r, transferBackPhase := .success, activeStep := none }
  | .sdkFailed m =>
    { s with
        transferBackError := some (m.getD "Token transfer failed.")
        transferBackPhase := .error
        activeStep := none }

/- ## Whole handlers as functions of the environment -/

/-- Outcome of a started operation, derived from the environment: the
negotiator result followed by the SDK call's outcome. -/
def opOutcome {R : Type} (env : Env) (sdk : Except (Option String) R) : OpOutcome R :=
  match (ensureWalletOnBase env).2 with
  | .error e => .ensureFailed e.message
  | .ok _ =>
    match sdk with
    | .ok r => .sdkOk r
    | .error m => .sdkFailed m

/-- Which external calls a handler run performed. -/
structure RunLog where
  ensureCalled : Bool
  sdkCalled : Bool
deriving DecidableEq, Repr

/-- Complete `handleDeploySafe`: entry stage, then (only if `running` was
entered) the negotiator, the SDK call and the continuation. -/
def handleDeploySafe (env : Env) (s : AppState) : AppState × RunLog :=
  let e := enterDeploy env.publicClientAvailable s
  if e.2 then
    let o := opOutcome env env.sdkDeploy
    (finishDeploy o e.1, ⟨true, o.sdkReached⟩)
  else
    (e.1, ⟨false, false⟩)

/-- Complete `handleSetPermissions`. -/
def handleSetPermissions (env : Env) (s : AppState) : AppState × RunLog :=
  let e := enterPermissions env.publicClientAvailable s
  if e.2 then
    let o := opOutcome env env.sdkSetPermissions
    (finishPermissions o e.1, ⟨true, o.sdkReached⟩)
  else
    (e.1, ⟨false, false⟩)

/-- Complete `handleTransfer`. -/
def handleTransfer (env : Env) (s : AppState) : AppState × RunLog :=
  let e := enterTransfer env.publicClientAvailable s
  if e.2 then
    let o := opOutcome env env.sdkTransfer
    (finishTransfer o e.1, ⟨true, o.sdkReached⟩)
  else
    (e.1, ⟨false, false⟩)

/-- Complete `handleTransferBack`. -/
def handleTransferBack (env : Env) (s : AppState) : AppState × RunLog :=
  let e := enterTransferBack env.publicClientAvailable s
  if e.2 then
    let o := opOutcome env env.sdkTransferBack
    (finishTransferBack o e.1, ⟨true, o.sdkReached⟩)
  else
    (e.1, ⟨false, false⟩)

/- ## The rendered UI as an event system -/

/-- UI-level readiness inputs: `useAccount().isConnected`, whether
`useChainId()` equals `base.id`, and `usePublicClient()` availability. -/
structure UiEnv where
  isConnected : Bool
  isOnBase : Bool
  publicClientAvailable : Bool
deriving DecidableEq, Repr

/-- `canInteract = isConnected && isOnBase && !!publicClient`. -/
def canInteract (e : UiEnv) : Bool :=
  e.isConnected && e.isOnBase && e.publicClientAvailable

/-- Negation of each step button's `disabled` attribute: every button
requires `canInteract`, the set-permissions and transfer-in buttons also
require a deploy result object, and each button is additionally disabled
only while `activeStep` equals its own step. -/
def buttonEnabled (e : UiEnv) (s : AppState) : Step → Bool
  | .deploy => canInteract e && !(s.activeStep == some .deploy)
  | .permissions => canInteract e && s.safeResult.isSome && !(s.activeStep == some .permissions)
  | .transfer => canInteract e && s.safeResult.isSome && !(s.activeStep == some .transfer)
  | .transferBack => canInteract e && !(s.activeStep == some .transferBack)

/-- The five text inputs of the transfer forms. -/
inductive FormField
  | tbSafe
  | tAddr
  | tAmount
  | tbAddr
  | tbAmount
deriving DecidableEq, Repr

/-- `onChange` of a form input: store the raw string. -/
def applyEdit (f : FormField) (v : String) (s : AppState) : AppState :=
  match f with
  | .tbSafe => { s with transferBackSafeAddress := v }
  | .tAddr => { s with transferAddress := v }
  | .tAmount => { s with transferAmount := v }
  | .tbAddr => { s with transferBackAddress := v }
  | .tbAmount => { s with transferBackAmount := v }

/-- A UI configuration: the component state plus the multiset (as a list)
of operations that have entered `running` and whose awaits have not yet
settled. -/
structure UiState where
  app : AppState
  pending : List Step
deriving DecidableEq, Repr

/-- The state the page loads in. -/
def initialUiState : UiState := ⟨initialAppState, []⟩

/-- Effect of clicking a step's button: run the handler's synchronous
prefix; if the operation entered `running`, its continuation becomes
pending. -/
def applyClick (e : UiEnv) (x : Step) (u : UiState) : UiState :=
  let r := enterStep e.publicClientAvailable x u.app
  { app := r.1, pending := if r.2 then x :: u.pending else u.pending }

/-- Settling of a pending deploy operation with outcome `o`. -/
def applyFinishDeploy (o : OpOutcome DeploySafeResult) (u : UiState) : UiState :=
  { app := finishDeploy o u.app, pending := u.pending.erase .deploy }

/-- Settling of a pending set-permissions operation with outcome `o`. -/
def applyFinishPermissions (o : OpOutcome SetPermissionsResult) (u : UiState) : UiState :=
  { app := finishPermissions o u.app, pending := u.pending.erase .permissions }

/-- Settling of a pending transfer-in operation with outcome `o`. -/
def applyFinishTransfer (o : OpOutcome TransferAssetResult) (u : UiState) : UiState :=
  { app := finishTransfer o u.app, pending := u.pending.erase .transfer }

/-- Settling of a pending transfer-out operation with outcome `o`. -/
def applyFinishTransferBack (o : OpOutcome TransferAssetResult) (u : UiState) : UiState :=
  { app := finishTransferBack o u.app, pending := u.pending.erase .transferBack }

/-- User and completion events the UI can process. -/
inductive Ev
  | edit (f : FormField) (v : String)
  | click (x : Step)
  | finDeploy (o : OpOutcome DeploySafeResult)
  | finPermissions (o : OpOutcome SetPermissionsResult)
  | finTransfer (o : OpOutcome TransferAssetResult)
  | finTransferBack (o : OpOutcome TransferAssetResult)

/-- Whether an event is a button click. -/
def Ev.isClick : Ev → Bool
  | .click _ => true
  | _ => false

/-- One step of the event loop: edits are always possible, a click of an
enabled button runs that handler's synchronous prefix, and a pending
operation may settle with any outcome. -/
inductive UiTr (e : UiEnv) : Ev → UiState → UiState → Prop
  | edit (f : FormField) (v : String) (u : UiState) :
      UiTr e (.edit f v) u ⟨applyEdit f v u.app, u.pending⟩
  | click (x : Step) (u : UiState) (h : buttonEnabled e u.app x = true) :
      UiTr e (.click x) u (applyClick e x u)
  | finDeploy (o : OpOutcome DeploySafeResult) (u : UiState) (h : Step.deploy ∈ u.pending) :
      UiTr e (.finDeploy o) u (applyFinishDeploy o u)
  | finPermissions (o : OpOutcome SetPermissionsResult) (u : UiState)
      (h : Step.permissions ∈ u.pending) :
      UiTr e (.finPermissions o) u (applyFinishPermissions o u)
  | finTransfer (o : OpOutcome TransferAssetResult) (u : UiState)
      (h : Step.transfer ∈ u.pending) :
      UiTr e (.finTransfer o) u (applyFinishTransfer o u)
  | finTransferBack (o : OpOutcome TransferAssetResult) (u : UiState)
      (h : Step.transferBack ∈ u.pending) :
      UiTr e (.finTransferBack o) u (applyFinishTransferBack o u)

/-- States reachable by any interleaving of user events. -/
inductive Reach (e : UiEnv) : UiState → Prop
  | init : Reach e initialUiState
  | step {u u' : UiState} {ev : Ev} : Reach e u → UiTr e ev u u' → Reach e u'

/-- States reachable by a serialized user: one who clicks a button only
while no operation is pending. -/
inductive SReach (e : UiEnv) : UiState → Prop
  | init : SReach e initialUiState
  | step {u u' : UiState} {ev : Ev} :
      SReach e u → UiTr e ev u u' → (ev.isClick = true → u.pending = []) → SReach e u'

/-- At most one of the four steps is in phase `running`. -/
def atMostOneRunning (s : AppState) : Prop :=
  ∀ x y : Step, phaseOf s x = .running → phaseOf s y = .running → x = y

/- ## Phase bookkeeping lemmas -/

lemma applyEdit_phase (f : FormField) (v : String) (s : AppState) (y : Step) :
    phaseOf (applyEdit f v s) y = phaseOf s y := by
  cases f <;> cases y <;> rfl

lemma enterDeploy_running (pc : Bool) (s : AppState) (y : Step)
    (h : phaseOf (enterDeploy pc s).1 y = .running) :
    y = Step.deploy ∨ phaseOf s y = .running := by
  unfold enterDeploy at h
  split at h <;> cases y <;> simp_all [phaseOf]

lemma enterPermissions_running (pc : Bool) (s : AppState) (y : Step)
    (h : phaseOf (enterPermissions pc s).1 y = .running) :
    y = Step.permissions ∨ phaseOf s y = .running := by
  unfold enterPermissions at h
  split at h <;> [skip; split at h] <;> cases y <;> simp_all [phaseOf]

lemma enterTransfer_running (pc : Bool) (s : AppState) (y : Step)
    (h : phaseOf (enterTransfer pc s).1 y = .running) :
    y = Step.transfer ∨ phaseOf s y = .running := by
  unfold enterTransfer at h
  split at h <;> [skip; split at h <;> [skip; split at h <;> [skip; split at h]]] <;>
    cases y <;> simp_all [phaseOf]

lemma enterTransferBack_running (pc : Bool) (s : AppState) (y : Step)
    (h : phaseOf (enterTransferBack pc s).1 y = .running) :
    y = Step.transferBack ∨ phaseOf s y = .running := by
  unfold enterTransferBack at h
  split at h <;> [skip; split at h <;> [skip; split at h <;> [skip; split at h]]] <;>
    cases y <;> simp_all [phaseOf]

lemma enterStep_running (pc : Bool) (x : Step) (s : AppState) (y : Step)
    (h : phaseOf ((enterStep pc x s).1) y = .running) :
    y = x ∨ phaseOf s y = .running := by
  cases x
  · exact enterDeploy_running pc s y h
  · exact enterPermissions_running pc s y h
  · exact enterTransfer_running pc s y h
  · exact enterTransferBack_running pc s y h

lemma enterDeploy_fail (pc : Bool) (s : AppState) (y : Step)
    (h2 : (enterDeploy pc s).2 = false)
    (h : phaseOf (enterDeploy pc s).1 y = .running) :
    phaseOf s y = .running := by
  unfold enterDeploy at h2 h
  split at h <;> cases y <;> simp_all [phaseOf]

lemma enterPermissions_fail (pc : Bool) (s : AppState) (y : Step)
    (h2 : (enterPermissions pc s).2 = false)
    (h : phaseOf (enterPermissions pc s).1 y = .running) :
    phaseOf s y = .running := by
  unfold enterPermissions at h2 h
  split at h <;> [skip; split at h] <;> cases y <;> simp_all [phaseOf]

lemma enterTransfer_fail (pc : Bool) (s : AppState) (y : Step)
    (h2 : (enterTransfer pc s).2 = false)
    (h : phaseOf (enterTransfer pc s).1 y = .running) :
    phaseOf s y = .running := by
  unfold enterTransfer at h2 h
  split at h <;> [skip; split at h <;> [skip; split at h <;> [skip; split at h]]] <;>
    cases y <;> simp_all [phaseOf]

lemma enterTransferBack_fail (pc : Bool) (s : AppState) (y : Step)
    (h2 : (enterTransferBack pc s).2 = false)
    (h : phaseOf (enterTransferBack pc s).1 y = .running) :
    phaseOf s y = .running := by
  unfold enterTransferBack at h2 h
  split at h <;> [skip; split at h <;> [skip; split at h <;> [skip; split at h]]] <;>
    cases y <;> simp_all [phaseOf]

lemma enterStep_fail (pc : Bool) (x : Step) (s : AppState) (y : Step)
    (h2 : (enterStep pc x s).2 = false)
    (h : phaseOf ((enterStep pc x s).1) y = .running) :
    phaseOf s y = .running := by
  cases x
  · exact enterDeploy_fail pc s y h2 h
  · exact enterPermissions_fail pc s y h2 h
  · exact enterTransfer_fail pc s y h2 h
  · exact enterTransferBack_fail pc s y h2 h

lemma finishDeploy_running (o : OpOutcome DeploySafeResult) (s : AppState) (y : Step)
    (h : phaseOf (finishDeploy o s) y = .running) :
    y ≠ Step.deploy ∧ phaseOf s y = .running := by
  cases o <;> cases y <;> simp_all [finishDeploy, phaseOf]

lemma finishPermissions_running (o : OpOutcome SetPermissionsResult) (s : AppState) (y : Step)
    (h : phaseOf (finishPermissions o s) y = .running) :
    y ≠ Step.permissions ∧ phaseOf s y = .running := by
  cases o <;> cases y <;> simp_all [finishPermissions, phaseOf]

lemma finishTransfer_running (o : OpOutcome TransferAssetResult) (s : AppState) (y : Step)
    (h : phaseOf (finishTransfer o s) y = .running) :
    y ≠ Step.transfer ∧ phaseOf s y = .running := by
  cases o <;> cases y <;> simp_all [finishTransfer, phaseOf]

lemma finishTransferBack_running (o : OpOutcome TransferAssetResult) (s : AppState) (y : Step)
    (h : phaseOf (finishTransferBack o s) y = .running) :
    y ≠ Step.transferBack ∧ phaseOf s y = .running := by
  cases o <;> cases y <;> simp_all [finishTransferBack, phaseOf]

/- ## The serialized-user invariant -/

/-- Inductive invariant for serialized traces: every running step has a
pending continuation, and at most one continuation is pending. -/
def SerialInv (u : UiState) : Prop :=
  (∀ x : Step, phaseOf u.app x = .running → x ∈ u.pending) ∧
  (u.pending = [] ∨ ∃ x : Step, u.pending = [x])

lemma serialInv_init : SerialInv initialUiState := by
  constructor
  · intro x hx
    cases x <;> simp [initialUiState, initialAppState, phaseOf] at hx
  · exact Or.inl rfl

lemma serialInv_finish {u : UiState} (x : Step) (f : AppState → AppState)
    (hfin : ∀ y, phaseOf (f u.app) y = .running → y ≠ x ∧ phaseOf u.app y = .running)
    (hmem : x ∈ u.pending) (ih : SerialInv u) :
    SerialInv ⟨f u.app, u.pending.erase x⟩ := by
  rcases ih with ⟨ih1, ih2⟩
  rcases ih2 with hnil | ⟨z, hz⟩
  · rw [hnil] at hmem
    cases hmem
  · have hxz : x = z := by
      rw [hz] at hmem
      simpa using hmem
    constructor
    · intro y hy
      rcases hfin y hy with ⟨hne, hbefore⟩
      have hyz : y = z := by
        have := ih1 y hbefore
        rw [hz] at this
        simpa using this
      exact absurd (hyz.trans hxz.symm) hne
    · left
      rw [hz, hxz]
      simp

lemma serialInv_click {e : UiEnv} {u : UiState} (x : Step)
    (hp : u.pending = []) (ih : SerialInv u) :
    SerialInv (applyClick e x u) := by
  rcases ih with ⟨ih1, _⟩
  have hnone : ∀ y : Step, ¬ phaseOf u.app y = .running := by
    intro y hy
    have := ih1 y hy
    rw [hp] at this
    cases this
  unfold applyClick
  by_cases hst : (enterStep e.publicClientAvailable x u.app).2 = true
  · constructor
    · intro y hy
      rcases enterStep_running e.publicClientAvailable x u.app y hy with hyx | hbefore
      · subst hyx
        simp [hst, hp]
      · exact absurd hbefore (hnone y)
    · right
      exact ⟨x, by simp [hst, hp]⟩
  · have hst' : (enterStep e.publicClientAvailable x u.app).2 = false := by
      simpa using hst
    constructor
    · intro y hy
      exact absurd (enterStep_fail e.publicClientAvailable x u.app y hst' hy) (hnone y)
    · left
      simp [hst', hp]

lemma sreach_serialInv {e : UiEnv} {u : UiState} (h : SReach e u) : SerialInv u := by
  induction h with
  | init => exact serialInv_init
  | step _ htr hser ih =>
    cases htr with
    | edit f v u =>
      constructor
      · intro x hx
        rw [applyEdit_phase] at hx
        exact ih.1 x hx
      · exact ih.2
    | click x u hen =>
      exact serialInv_click x (hser rfl) ih
    | finDeploy o u hmem =>
      exact serialInv_finish Step.deploy (finishDeploy o)
        (fun y hy => finishDeploy_running o _ y hy) hmem ih
    | finPermissions o u hmem =>
      exact serialInv_finish Step.permissions (finishPermissions o)
        (fun y hy => finishPermissions_running o _ y hy) hmem ih
    | finTransfer o u hmem =>
      exact serialInv_finish Step.transfer (finishTransfer o)
        (fun y hy => finishTransfer_running o _ y hy) hmem ih
    | finTransferBack o u hmem =>
      exact serialInv_finish Step.transferBack (finishTransferBack o)
        (fun y hy => finishTransferBack_running o _ y hy) hmem ih

/- ## Claim C1 -/

/-- A connected, on-Base UI with a public client present. -/
def readyUiEnv : UiEnv := ⟨true, true, true⟩

/-- A well-formed 42-character `0x`-prefixed address. -/
def sampleAddr : String := "0x1111111111111111111111111111111111111111"

/-- The user fills the transfer-out form, clicks deploy, and — while deploy
is still awaiting its wallet interaction — clicks transfer-out. -/
def twoRunningState : UiState :=
  applyClick readyUiEnv .transferBack
    (applyClick readyUiEnv .deploy
      ⟨applyEdit .tbAmount "1"
        (applyEdit .tbAddr sampleAddr
          (applyEdit .tbSafe sampleAddr initialAppState)), []⟩)

lemma twoRunningState_reachable : Reach readyUiEnv twoRunningState := by
  have h0 : Reach readyUiEnv initialUiState := Reach.init
  have h1 := Reach.step h0 (UiTr.edit .tbSafe sampleAddr initialUiState)
  have h2 := Reach.step h1 (UiTr.edit .tbAddr sampleAddr _)
  have h3 := Reach.step h2 (UiTr.edit .tbAmount "1" _)
  have h4 := Reach.step h3 (UiTr.click .deploy _ (by decide))
  have h5 := Reach.step h4 (UiTr.click .transferBack _ (by decide))
  exact h5

/-- C1 counterexample: it is not the case that every UI state reachable by
some interleaving of user events has at most one step in phase `running`.
Each trigger is disabled only while `activeStep` equals its own step, so
clicking transfer-out while deploy is running yields a reachable state
with both `deployPhase` and `transferBackPhase` equal to `running`. -/
theorem c1_counterexample :
    ¬ (∀ u : UiState, Reach readyUiEnv u → atMostOneRunning u.app) := by
  intro hall
  have hd : phaseOf twoRunningState.app Step.deploy = .running := by decide
  have ht : phaseOf twoRunningState.app Step.transferBack = .running := by decide
  have := hall twoRunningState twoRunningState_reachable Step.deploy Step.transferBack hd ht
  exact absurd this (by decide)

/-- C1 (amended): each step's trigger is disabled only while that step is
itself the active one, so concurrent runs of distinct steps are possible;
but for a serialized user — one who triggers a step only when no
operation is pending — every reachable UI state has at most one of the
four step states in phase `running`. -/
theorem c1_serialized_at_most_one_running (e : UiEnv) (u : UiState) (h : SReach e u) :
    atMostOneRunning u.app := by
  have hinv := sreach_serialInv h
  intro x y hx hy
  have hmx := hinv.1 x hx
  have hmy := hinv.1 y hy
  rcases hinv.2 with hnil | ⟨z, hz⟩
  · rw [hnil] at hmx
    cases hmx
  · rw [hz] at hmx hmy
    have hx' : x = z := by simpa using hmx
    have hy' : y = z := by simpa using hmy
    rw [hx', hy']

/-- Witness for C1: the serialized invariant applied to a concrete
serialized trace (deploy clicked from the initial state). -/
theorem c1_serialized_at_most_one_running_witness :
    atMostOneRunning (applyClick readyUiEnv .deploy initialUiState).app :=
  c1_serialized_at_most_one_running readyUiEnv (applyClick readyUiEnv .deploy initialUiState)
    (SReach.step SReach.init (UiTr.click .deploy initialUiState (by decide))
      (fun _ => rfl))

/- ## Claim C7 -/

/-- C7: the negotiator is an identity on already-ready sessions. If the
wallet client's resolved chain id already equals `base.id` and the client
exposes an active account, `ensureWalletOnBase` attempts no session-level
or provider-level switch, performs no refresh, and returns the very same
handle unchanged. -/
theorem c7_ensure_identity (env : Env) (wc : WalletClient) (a : String)
    (hw : env.walletClient = some wc)
    (hchain : resolveChainId wc = some baseId)
    (hacct : wc.account = some a) :
    ensureWalletOnBase env = (⟨false, false, false⟩, .ok wc) := by
  unfold ensureWalletOnBase
  rw [hw]
  simp [hchain, checkAccount, hacct]

/-- A wallet client already bound to Base with an active account. -/
def wcReady : WalletClient := ⟨some 8453, false, 0, false, false, some "0xowner"⟩

/-- An environment around `wcReady`. -/
def envReady : Env where
  publicClientAvailable := true
  walletClient := some wcReady
  hasSwitchChainAsync := true
  switchChainAsyncThrows := false
  switchChainAsyncErrMsg := ""
  refetchAvailable := true
  refreshedClient := none
  sdkDeploy := .error none
  sdkSetPermissions := .error none
  sdkTransfer := .error none
  sdkTransferBack := .error none

/-- Witness for C7 at a concrete ready session. -/
theorem c7_ensure_identity_witness :
    ensureWalletOnBase envReady = (⟨false, false, false⟩, .ok wcReady) :=
  c7_ensure_identity envReady wcReady "0xowner" rfl rfl rfl

/- ## Claim C2 -/

lemma ensure_mismatch (env : Env) (wc : WalletClient)
    (hw : env.walletClient = some wc)
    (h1 : resolveChainId wc ≠ some baseId)
    (h2 : ¬(providerAttempted env wc = true ∧ env.switchChainAsyncThrows = true))
    (h3 : resolveChainId (postSwitchClient env wc).1 ≠ some baseId) :
    (ensureWalletOnBase env).2 = .error .networkMismatch := by
  have hc : ¬((providerAttempted env wc && env.switchChainAsyncThrows) = true) := by
    simpa [Bool.and_eq_true] using h2
  unfold ensureWalletOnBase
  rw [hw]
  simp only [if_neg h1, if_neg hc, if_pos h3]

lemma opOutcome_ensure_error {R : Type} (env : Env) (sdk : Except (Option String) R)
    (e : EnsureErr) (h : (ensureWalletOnBase env).2 = .error e) :
    opOutcome env sdk = .ensureFailed e.message := by
  unfold opOutcome
  rw [h]

lemma handleDeploySafe_started (env : Env) (s : AppState)
    (hpc : env.publicClientAvailable = true) :
    handleDeploySafe env s =
      (finishDeploy (opOutcome env env.sdkDeploy) (enterDeploy true s).1,
       ⟨true, (opOutcome env env.sdkDeploy).sdkReached⟩) := by
  unfold handleDeploySafe
  rw [hpc]
  rfl

lemma handleSetPermissions_started (env : Env) (s : AppState)
    (hpc : env.publicClientAvailable = true)
    (hsr : hasSafeAddress s.safeResult = true) :
    handleSetPermissions env s =
      (finishPermissions (opOutcome env env.sdkSetPermissions) (enterPermissions true s).1,
       ⟨true, (opOutcome env env.sdkSetPermissions).sdkReached⟩) := by
  unfold handleSetPermissions enterPermissions
  rw [hpc, hsr]
  rfl

lemma handleTransfer_started (env : Env) (s : AppState)
    (hpc : env.publicClientAvailable = true)
    (hsr : hasSafeAddress s.safeResult = true)
    (ht1 : addrInputInvalid (jsTrim s.transferAddress) = false)
    (ht2 : (jsTrim s.transferAmount).isEmpty = false) :
    handleTransfer env s =
      (finishTransfer (opOutcome env env.sdkTransfer) (enterTransfer true s).1,
       ⟨true, (opOutcome env env.sdkTransfer).sdkReached⟩) := by
  unfold handleTransfer enterTransfer
  rw [hpc, hsr, ht1, ht2]
  rfl

lemma handleTransferBack_started (env : Env) (s : AppState)
    (hpc : env.publicClientAvailable = true)
    (hb0 : addrInputInvalid (jsTrim s.transferBackSafeAddress) = false)
    (hb1 : addrInputInvalid (jsTrim s.transferBackAddress) = false)
    (hb2 : (jsTrim s.transferBackAmount).isEmpty = false) :
    handleTransferBack env s =
      (finishTransferBack (opOutcome env env.sdkTransferBack) (enterTransferBack true s).1,
       ⟨true, (opOutcome env env.sdkTransferBack).sdkReached⟩) := by
  unfold handleTransferBack enterTransferBack
  rw [hpc, hb0, hb1, hb2]
  rfl

/-- C2 (amended): for every operation, if the resolved chain id differs
from `base.id`, the provider-level switch — when it is attempted — does
not reject, and the chain id re-resolved from the possibly-refreshed
handle still differs, then the operation ends in phase `error` carrying
the network-mismatch message and the SDK operation is never invoked. (If
the provider-level switch rejects, the operation still ends in `error`
without an SDK call, but carries the rejection's message instead; see the
counterexample.) -/
theorem c2_network_mismatch_all_ops (env : Env) (s : AppState) (wc : WalletClient)
    (hw : env.walletClient = some wc)
    (h1 : resolveChainId wc ≠ some baseId)
    (h2 : ¬(providerAttempted env wc = true ∧ env.switchChainAsyncThrows = true))
    (h3 : resolveChainId (postSwitchClient env wc).1 ≠ some baseId)
    (hpc : env.publicClientAvailable = true) :
    ((handleDeploySafe env s).1.deployPhase = .error ∧
     (handleDeploySafe env s).1.deployError =
       some "Please switch your wallet to the Base network and try again." ∧
     (handleDeploySafe env s).2.sdkCalled = false) ∧
    (hasSafeAddress s.safeResult = true →
     (handleSetPermissions env s).1.permissionsPhase = .error ∧
     (handleSetPermissions env s).1.permissionsError =
       some "Please switch your wallet to the Base network and try again." ∧
     (handleSetPermissions env s).2.sdkCalled = false) ∧
    (hasSafeAddress s.safeResult = true ∧
       addrInputInvalid (jsTrim s.transferAddress) = false ∧
       (jsTrim s.transferAmount).isEmpty = false →
     (handleTransfer env s).1.transferPhase = .error ∧
     (handleTransfer env s).1.transferError =
       some "Please switch your wallet to the Base network and try again." ∧
     (handleTransfer env s).2.sdkCalled = false) ∧
    (addrInputInvalid (jsTrim s.transferBackSafeAddress) = false ∧
       addrInputInvalid (jsTrim s.transferBackAddress) = false ∧
       (jsTrim s.transferBackAmount).isEmpty = false →
     (handleTransferBack env s).1.transferBackPhase = .error ∧
     (handleTransferBack env s).1.transferBackError =
       some "Please switch your wallet to the Base network and try again." ∧
     (handleTransferBack env s).2.sdkCalled = false) := by
  have he := ensure_mismatch env wc hw h1 h2 h3
  refine ⟨?_, fun hg => ?_, fun hg => ?_, fun hg => ?_⟩
  · rw [handleDeploySafe_started env s hpc,
      opOutcome_ensure_error env env.sdkDeploy _ he]
    exact ⟨rfl, rfl, rfl⟩
  · rw [handleSetPermissions_started env s hpc hg,
      opOutcome_ensure_error env env.sdkSetPermissions _ he]
    exact ⟨rfl, rfl, rfl⟩
  · rw [handleTransfer_started env s hpc hg.1 hg.2.1 hg.2.2,
      opOutcome_ensure_error env env.sdkTransfer _ he]
    exact ⟨rfl, rfl, rfl⟩
  · rw [handleTransferBack_started env s hpc hg.1 hg.2.1 hg.2.2,
      opOutcome_ensure_error env env.sdkTransferBack _ he]
    exact ⟨rfl, rfl, rfl⟩

/-- A client on chain 1 whose session-level switch rejects. -/
def wcMism : WalletClient := ⟨some 1, false, 0, true, true, some "0xowner"⟩

/-- An environment around `wcMism` with no provider-level switch
available, so no switch path can succeed. -/
def envMism : Env where
  publicClientAvailable := true
  walletClient := some wcMism
  hasSwitchChainAsync := false
  switchChainAsyncThrows := false
  switchChainAsyncErrMsg := ""
  refetchAvailable := true
  refreshedClient := none
  sdkDeploy := .error none
  sdkSetPermissions := .error none
  sdkTransfer := .error none
  sdkTransferBack := .error none

/-- A state with a deploy result and fully valid transfer forms. -/
def filledState : AppState :=
  { initialAppState with
      safeResult := some ⟨sampleAddr, sampleAddr, "0xhash"⟩
      transferAddress := sampleAddr
      transferAmount := "5"
      transferBackSafeAddress := sampleAddr
      transferBackAddress := sampleAddr
      transferBackAmount := "5" }

/-- Witness for C2 at a concrete mismatched environment. -/
theorem c2_network_mismatch_all_ops_witness :
    ((handleDeploySafe envMism filledState).1.deployPhase = .error ∧
     (handleDeploySafe envMism filledState).1.deployError =
       some "Please switch your wallet to the Base network and try again." ∧
     (handleDeploySafe envMism filledState).2.sdkCalled = false) ∧
    ((handleSetPermissions envMism filledState).1.permissionsPhase = .error ∧
     (handleSetPermissions envMism filledState).1.permissionsError =
       some "Please switch your wallet to the Base network and try again." ∧
     (handleSetPermissions envMism filledState).2.sdkCalled = false) ∧
    ((handleTransfer envMism filledState).1.transferPhase = .error ∧
     (handleTransfer envMism filledState).1.transferError =
       some "Please switch your wallet to the Base network and try again." ∧
     (handleTransfer envMism filledState).2.sdkCalled = false) ∧
    ((handleTransferBack envMism filledState).1.transferBackPhase = .error ∧
     (handleTransferBack envMism filledState).1.transferBackError =
       some "Please switch your wallet to the Base network and try again." ∧
     (handleTransferBack envMism filledState).2.sdkCalled = false) := by
  have h := c2_network_mismatch_all_ops envMism filledState wcMism rfl
    (by decide) (by decide) (by decide) rfl
  exact ⟨h.1, h.2.1 (by decide), h.2.2.1 (by decide), h.2.2.2 (by decide)⟩

/-- A client on chain 1 with no session-level switch method. -/
def wcThrow : WalletClient := ⟨some 1, false, 0, false, false, some "0xowner"⟩

/-- An environment whose provider-level `switchChainAsync` rejects with
a user-rejection message. -/
def envThrow : Env where
  publicClientAvailable := true
  walletClient := some wcThrow
  hasSwitchChainAsync := true
  switchChainAsyncThrows := true
  switchChainAsyncErrMsg := "User rejected the request."
  refetchAvailable := true
  refreshedClient := none
  sdkDeploy := .error none
  sdkSetPermissions := .error none
  sdkTransfer := .error none
  sdkTransferBack := .error none

/-- C2 counterexample: with the chain mismatched and neither switch path
succeeding (the session-level switch is absent and the provider-level
switch rejects), deploy ends in `error` with the rejection's message —
not the network-mismatch message — though still without any SDK call.
The rejection of `switchChainAsync` propagates uncaught out of
`ensureWalletOnBase`. -/
theorem c2_counterexample :
    (handleDeploySafe envThrow initialAppState).1.deployPhase = .error ∧
    (handleDeploySafe envThrow initialAppState).1.deployError =
      some "User rejected the request." ∧
    (handleDeploySafe envThrow initialAppState).1.deployError ≠
      some "Please switch your wallet to the Base network and try again." ∧
    (handleDeploySafe envThrow initialAppState).2.sdkCalled = false := by
  exact ⟨by decide, by decide, by decide, by decide⟩

/- ## Claims C4 and C5: state updates on entering `running` -/

lemma enterDeploy_started_state (pc : Bool) (s : AppState)
    (h : (enterDeploy pc s).2 = true) :
    (enterDeploy pc s).1 =
      { s with
          activeStep := some .deploy
          deployPhase := .running
          deployError := none
          permissionsPhase := .idle
          permissionsError := none
          permissionsResult := none
          transferPhase := .idle
          transferError := none
          transferResult := none
          transferBackPhase := .idle
          transferBackError := none
          transferBackResult := none
          safeResult := none } := by
  unfold enterDeploy at h ⊢
  split at h <;> simp_all

lemma enterPermissions_started_state (pc : Bool) (s : AppState)
    (h : (enterPermissions pc s).2 = true) :
    (enterPermissions pc s).1 =
      { s with
          activeStep := some .permissions
          permissionsPhase := .running
          permissionsError := none
          transferPhase := .idle
          transferError := none
          transferResult := none
          transferBackPhase := .idle
          transferBackError := none
          transferBackResult := none } := by
  unfold enterPermissions at h ⊢
  split at h <;> [skip; split at h] <;> simp_all

lemma enterTransfer_started_state (pc : Bool) (s : AppState)
    (h : (enterTransfer pc s).2 = true) :
    (enterTransfer pc s).1 =
      { s with
          activeStep := some .transfer
          transferPhase := .running
          transferError := none } := by
  unfold enterTransfer at h ⊢
  split at h <;> [skip; split at h <;> [skip; split at h <;> [skip; split at h]]] <;> simp_all

lemma enterTransferBack_started_state (pc : Bool) (s : AppState)
    (h : (enterTransferBack pc s).2 = true) :
    (enterTransferBack pc s).1 =
      { s with
          activeStep := some .transferBack
          transferBackPhase := .running
          transferBackError := none } := by
  unfold enterTransferBack at h ⊢
  split at h <;> [skip; split at h <;> [skip; split at h <;> [skip; split at h]]] <;> simp_all

/-- A state holding a previous result for every step, with valid forms. -/
def stateWithResults : AppState :=
  { initialAppState with
      safeResult := some ⟨sampleAddr, sampleAddr, "0xhash"⟩
      permissionsResult := some ⟨"0xroles", "0xproxy", "0xhash2"⟩
      transferResult := some ⟨"0xhash3"⟩
      transferBackResult := some ⟨"0xhash4"⟩
      transferAddress := sampleAddr
      transferAmount := "5"
      transferBackSafeAddress := sampleAddr
      transferBackAddress := sampleAddr
      transferBackAmount := "5" }

/-- C4 counterexample: set-permissions — an operation other than deploy —
does reset another step's state when it enters `running`: from a state
whose transfer-in step holds a result, triggering set-permissions enters
`running` and wipes the transfer-in result and phase. -/
theorem c4_counterexample :
    (enterPermissions true stateWithResults).2 = true ∧
    stateWithResults.transferResult = some ⟨"0xhash3"⟩ ∧
    (enterPermissions true stateWithResults).1.transferResult = none ∧
    (enterPermissions true stateWithResults).1.transferBackResult = none := by
  exact ⟨by decide, by decide, by decide, by decide⟩

/-- C4 (amended): deploy, on entering `running`, resets the
set-permissions, transfer-in and transfer-out phases, results and errors
to their initial empty state; set-permissions, on entering `running`,
also resets the transfer-in and transfer-out phases, results and errors
while leaving deploy's state untouched; the two transfer operations
reset no other step's phase, result or error. -/
theorem c4_reset_behavior (pc : Bool) (s : AppState) :
    ((enterDeploy pc s).2 = true →
      (enterDeploy pc s).1.permissionsPhase = .idle ∧
      (enterDeploy pc s).1.permissionsResult = none ∧
      (enterDeploy pc s).1.permissionsError = none ∧
      (enterDeploy pc s).1.transferPhase = .idle ∧
      (enterDeploy pc s).1.transferResult = none ∧
      (enterDeploy pc s).1.transferError = none ∧
      (enterDeploy pc s).1.transferBackPhase = .idle ∧
      (enterDeploy pc s).1.transferBackResult = none ∧
      (enterDeploy pc s).1.transferBackError = none) ∧
    ((enterPermissions pc s).2 = true →
      (enterPermissions pc s).1.transferPhase = .idle ∧
      (enterPermissions pc s).1.transferResult = none ∧
      (enterPermissions pc s).1.transferError = none ∧
      (enterPermissions pc s).1.transferBackPhase = .idle ∧
      (enterPermissions pc s).1.transferBackResult = none ∧
      (enterPermissions pc s).1.transferBackError = none ∧
      (enterPermissions pc s).1.deployPhase = s.deployPhase ∧
      (enterPermissions pc s).1.safeResult = s.safeResult ∧
      (enterPermissions pc s).1.deployError = s.deployError) ∧
    ((enterTransfer pc s).1.deployPhase = s.deployPhase ∧
      (enterTransfer pc s).1.safeResult = s.safeResult ∧
      (enterTransfer pc s).1.deployError = s.deployError ∧
      (enterTransfer pc s).1.permissionsPhase = s.permissionsPhase ∧
      (enterTransfer pc s).1.permissionsResult = s.permissionsResult ∧
      (enterTransfer pc s).1.permissionsError = s.permissionsError ∧
      (enterTransfer pc s).1.transferBackPhase = s.transferBackPhase ∧
      (enterTransfer pc s).1.transferBackResult = s.transferBackResult ∧
      (enterTransfer pc s).1.transferBackError = s.transferBackError) ∧
    ((enterTransferBack pc s).1.deployPhase = s.deployPhase ∧
      (enterTransferBack pc s).1.safeResult = s.safeResult ∧
      (enterTransferBack pc s).1.deployError = s.deployError ∧
      (enterTransferBack pc s).1.permissionsPhase = s.permissionsPhase ∧
      (enterTransferBack pc s).1.permissionsResult = s.permissionsResult ∧
      (enterTransferBack pc s).1.permissionsError = s.permissionsError ∧
      (enterTransferBack pc s).1.transferPhase = s.transferPhase ∧
      (enterTransferBack pc s).1.transferResult = s.transferResult ∧
      (enterTransferBack pc s).1.transferError = s.transferError) := by
  refine ⟨fun h => ?_, fun h => ?_, ?_, ?_⟩
  · rw [enterDeploy_started_state pc s h]
    exact ⟨rfl, rfl, rfl, rfl, rfl, rfl, rfl, rfl, rfl⟩
  · rw [enterPermissions_started_state pc s h]
    exact ⟨rfl, rfl, rfl, rfl, rfl, rfl, rfl, rfl, rfl⟩
  · unfold enterTransfer
    split <;> [skip; split <;> [skip; split <;> [skip; split]]] <;>
      exact ⟨rfl, rfl, rfl, rfl, rfl, rfl, rfl, rfl, rfl⟩
  · unfold enterTransferBack
    split <;> [skip; split <;> [skip; split <;> [skip; split]]] <;>
      exact ⟨rfl, rfl, rfl, rfl, rfl, rfl, rfl, rfl, rfl⟩

/-- Witness for C4 at a concrete state holding results for every step. -/
theorem c4_reset_behavior_witness :
    (enterDeploy true stateWithResults).1.permissionsResult = none ∧
    (enterPermissions true stateWithResults).1.transferResult = none ∧
    (enterPermissions true stateWithResults).1.safeResult = stateWithResults.safeResult ∧
    (enterTransfer true stateWithResults).1.permissionsResult =
      stateWithResults.permissionsResult ∧
    (enterTransferBack true stateWithResults).1.transferResult =
      stateWithResults.transferResult := by
  have h := c4_reset_behavior true stateWithResults
  exact ⟨(h.1 (by decide)).2.1, (h.2.1 (by decide)).2.1, (h.2.1 (by decide)).2.2.2.2.2.2.2.1,
    h.2.2.1.2.2.2.2.1, h.2.2.2.2.2.2.2.2.2.2.1⟩

/-- C5 counterexample: set-permissions does not clear its own previous
result on entering `running`: from a state holding a previous
set-permissions result, triggering it enters `running` with the old
result still present, so during `running` its result is not none. -/
theorem c5_counterexample :
    (enterPermissions true stateWithResults).1.permissionsPhase = .running ∧
    (enterPermissions true stateWithResults).1.permissionsResult =
      some ⟨"0xroles", "0xproxy", "0xhash2"⟩ := by
  exact ⟨by decide, by decide⟩

/-- C5 (amended): on entering `running` every operation clears its own
error message; deploy additionally clears its own previous result (so
its result is none while it runs), but set-permissions, transfer-in and
transfer-out leave their own previous result untouched, so a previous
result can persist during `running`. -/
theorem c5_running_entry (pc : Bool) (s : AppState) :
    ((enterDeploy pc s).2 = true →
      (enterDeploy pc s).1.deployPhase = .running ∧
      (enterDeploy pc s).1.deployError = none ∧
      (enterDeploy pc s).1.safeResult = none) ∧
    ((enterPermissions pc s).2 = true →
      (enterPermissions pc s).1.permissionsPhase = .running ∧
      (enterPermissions pc s).1.permissionsError = none ∧
      (enterPermissions pc s).1.permissionsResult = s.permissionsResult) ∧
    ((enterTransfer pc s).2 = true →
      (enterTransfer pc s).1.transferPhase = .running ∧
      (enterTransfer pc s).1.transferError = none ∧
      (enterTransfer pc s).1.transferResult = s.transferResult) ∧
    ((enterTransferBack pc s).2 = true →
      (enterTransferBack pc s).1.transferBackPhase = .running ∧
      (enterTransferBack pc s).1.transferBackError = none ∧
      (enterTransferBack pc s).1.transferBackResult = s.transferBackResult) := by
  refine ⟨fun h => ?_, fun h => ?_, fun h => ?_, fun h => ?_⟩
  · rw [enterDeploy_started_state pc s h]
    exact ⟨rfl, rfl, rfl⟩
  · rw [enterPermissions_started_state pc s h]
    exact ⟨rfl, rfl, rfl⟩
  · rw [enterTransfer_started_state pc s h]
    exact ⟨rfl, rfl, rfl⟩
  · rw [enterTransferBack_started_state pc s h]
    exact ⟨rfl, rfl, rfl⟩

/-- Witness for C5 at a concrete state holding results for every step. -/
theorem c5_running_entry_witness :
    (enterDeploy true stateWithResults).1.safeResult = none ∧
    (enterPermissions true stateWithResults).1.permissionsResult =
      stateWithResults.permissionsResult ∧
    (enterTransfer true stateWithResults).1.transferResult =
      stateWithResults.transferResult ∧
    (enterTransferBack true stateWithResults).1.transferBackResult =
      stateWithResults.transferBackResult := by
  have h := c5_running_entry true stateWithResults
  exact ⟨(h.1 (by decide)).2.2, (h.2.1 (by decide)).2.2, (h.2.2.1 (by decide)).2.2,
    (h.2.2.2 (by decide)).2.2⟩

/- ## Claim C3: transfer form validation -/

/-- C3: for both transfer operations, under the operation's prerequisite
guard (a deploy result with a non-empty address for transfer-in; a valid
manually supplied Safe address for transfer-out), an invalidly shaped
trimmed token address ends the handler synchronously in phase `error`
with the token validation message, and a valid token address with an
empty trimmed amount ends it synchronously with the amount validation
message; in each case the state is otherwise untouched and neither the
negotiator nor the SDK is invoked. -/
theorem c3_transfer_validation (env : Env) (s : AppState)
    (hpc : env.publicClientAvailable = true) :
    (hasSafeAddress s.safeResult = true →
      addrInputInvalid (jsTrim s.transferAddress) = true →
      handleTransfer env s =
        ({ s with
            transferError := some "Enter a valid token address."
            transferPhase := .error }, ⟨false, false⟩)) ∧
    (hasSafeAddress s.safeResult = true →
      addrInputInvalid (jsTrim s.transferAddress) = false →
      (jsTrim s.transferAmount).isEmpty = true →
      handleTransfer env s =
        ({ s with
            transferError := some "Enter an amount (integer or hex string)."
            transferPhase := .error }, ⟨false, false⟩)) ∧
    (addrInputInvalid (jsTrim s.transferBackSafeAddress) = false →
      addrInputInvalid (jsTrim s.transferBackAddress) = true →
      handleTransferBack env s =
        ({ s with
            transferBackError := some "Enter a valid token address."
            transferBackPhase := .error }, ⟨false, false⟩)) ∧
    (addrInputInvalid (jsTrim s.transferBackSafeAddress) = false →
      addrInputInvalid (jsTrim s.transferBackAddress) = false →
      (jsTrim s.transferBackAmount).isEmpty = true →
      handleTransferBack env s =
        ({ s with
            transferBackError := some "Enter an amount (integer or hex string)."
            transferBackPhase := .error }, ⟨false, false⟩)) := by
  refine ⟨fun hsr hbad => ?_, fun hsr hok hemp => ?_, fun hb0 hbad => ?_,
    fun hb0 hok hemp => ?_⟩
  · unfold handleTransfer enterTransfer
    rw [hpc, hsr, hbad]
    rfl
  · unfold handleTransfer enterTransfer
    rw [hpc, hsr, hok, hemp]
    rfl
  · unfold handleTransferBack enterTransferBack
    rw [hpc, hb0, hbad]
    rfl
  · unfold handleTransferBack enterTransferBack
    rw [hpc, hb0, hok, hemp]
    rfl

/-- A state whose transfer token address is 41 characters (missing one
hex digit) and whose transfer-out token address lacks the 0x prefix. -/
def badTokenState : AppState :=
  { initialAppState with
      safeResult := some ⟨sampleAddr, sampleAddr, "0xhash"⟩
      transferAddress := "0x111111111111111111111111111111111111111"
      transferAmount := "5"
      transferBackSafeAddress := sampleAddr
      transferBackAddress := "1111111111111111111111111111111111111111aa"
      transferBackAmount := "5" }

/-- A state with valid token addresses but whitespace-only amounts. -/
def emptyAmountState : AppState :=
  { initialAppState with
      safeResult := some ⟨sampleAddr, sampleAddr, "0xhash"⟩
      transferAddress := sampleAddr
      transferAmount := "  "
      transferBackSafeAddress := sampleAddr
      transferBackAddress := sampleAddr
      transferBackAmount := "" }

/-- Witness for C3 at concrete malformed inputs. -/
theorem c3_transfer_validation_witness :
    handleTransfer envReady badTokenState =
      ({ badTokenState with
          transferError := some "Enter a valid token address."
          transferPhase := .error }, ⟨false, false⟩) ∧
    handleTransfer envReady emptyAmountState =
      ({ emptyAmountState with
          transferError := some "Enter an amount (integer or hex string)."
          transferPhase := .error }, ⟨false, false⟩) ∧
    handleTransferBack envReady badTokenState =
      ({ badTokenState with
          transferBackError := some "Enter a valid token address."
          transferBackPhase := .error }, ⟨false, false⟩) ∧
    handleTransferBack envReady emptyAmountState =
      ({ emptyAmountState with
          transferBackError := some "Enter an amount (integer or hex string)."
          transferBackPhase := .error }, ⟨false, false⟩) := by
  refine ⟨?_, ?_, ?_, ?_⟩
  · exact (c3_transfer_validation envReady badTokenState rfl).1 (by decide) (by decide)
  · exact (c3_transfer_validation envReady emptyAmountState rfl).2.1 (by decide) (by decide)
      (by decide)
  · exact (c3_transfer_validation envReady badTokenState rfl).2.2.1 (by decide) (by decide)
  · exact (c3_transfer_validation envReady emptyAmountState rfl).2.2.2 (by decide) (by decide)
      (by decide)

/- ## Claim C6: prerequisite guards -/

/-- C6: set-permissions and transfer-in are guarded on deploy's result —
triggered with the public client present but no usable deploy result,
they end synchronously in phase `error` with the missing-prerequisite
message and perform no negotiator or SDK call; transfer-out has no such
guard — with validly formatted Safe address, token address and amount it
always reaches the negotiator, whatever the deploy step's result. -/
theorem c6_prerequisite_guards (env : Env) (s : AppState)
    (hpc : env.publicClientAvailable = true) :
    (hasSafeAddress s.safeResult = false →
      handleSetPermissions env s =
        ({ s with
            permissionsError := some "Deploy a Safe first."
            permissionsPhase := .error }, ⟨false, false⟩)) ∧
    (hasSafeAddress s.safeResult = false →
      handleTransfer env s =
        ({ s with
            transferError := some "Deploy a Safe first."
            transferPhase := .error }, ⟨false, false⟩)) ∧
    (addrInputInvalid (jsTrim s.transferBackSafeAddress) = false →
      addrInputInvalid (jsTrim s.transferBackAddress) = false →
      (jsTrim s.transferBackAmount).isEmpty = false →
      (handleTransferBack env s).2.ensureCalled = true) := by
  refine ⟨fun hno => ?_, fun hno => ?_, fun hb0 hb1 hb2 => ?_⟩
  · unfold handleSetPermissions enterPermissions
    rw [hpc, hno]
    rfl
  · unfold handleTransfer enterTransfer
    rw [hpc, hno]
    rfl
  · rw [handleTransferBack_started env s hpc hb0 hb1 hb2]

/-- A state with no deploy result but a fully valid transfer-out form. -/
def noDeployState : AppState :=
  { initialAppState with
      transferBackSafeAddress := sampleAddr
      transferBackAddress := sampleAddr
      transferBackAmount := "7" }

/-- Witness for C6: with no deploy result, set-permissions and
transfer-in fail synchronously with the missing-prerequisite message,
while transfer-out reaches the negotiator. -/
theorem c6_prerequisite_guards_witness :
    handleSetPermissions envReady noDeployState =
      ({ noDeployState with
          permissionsError := some "Deploy a Safe first."
          permissionsPhase := .error }, ⟨false, false⟩) ∧
    handleTransfer envReady noDeployState =
      ({ noDeployState with
          transferError := some "Deploy a Safe first."
          transferPhase := .error }, ⟨false, false⟩) ∧
    (handleTransferBack envReady noDeployState).2.ensureCalled = true := by
  have h := c6_prerequisite_guards envReady noDeployState rfl
  exact ⟨h.1 (by decide), h.2.1 (by decide), h.2.2 (by decide) (by decide) (by decide)⟩

/- ## Claim C8: later failures leave earlier results intact -/

/-- C8: a non-deploy operation never changes the state of steps earlier
in the pipeline, whatever its outcome — in particular when it ends in
phase `error`. Set-permissions leaves deploy's phase, result and error
unchanged; transfer-in additionally leaves set-permissions' state
unchanged; transfer-out leaves the state of all three other steps
unchanged. -/
theorem c8_prior_results_intact (env : Env) (s : AppState) :
    ((handleSetPermissions env s).1.deployPhase = s.deployPhase ∧
     (handleSetPermissions env s).1.safeResult = s.safeResult ∧
     (handleSetPermissions env s).1.deployError = s.deployError) ∧
    ((handleTransfer env s).1.deployPhase = s.deployPhase ∧
     (handleTransfer env s).1.safeResult = s.safeResult ∧
     (handleTransfer env s).1.deployError = s.deployError ∧
     (handleTransfer env s).1.permissionsPhase = s.permissionsPhase ∧
     (handleTransfer env s).1.permissionsResult = s.permissionsResult ∧
     (handleTransfer env s).1.permissionsError = s.permissionsError) ∧
    ((handleTransferBack env s).1.deployPhase = s.deployPhase ∧
     (handleTransferBack env s).1.safeResult = s.safeResult ∧
     (handleTransferBack env s).1.deployError = s.deployError ∧
     (handleTransferBack env s).1.permissionsPhase = s.permissionsPhase ∧
     (handleTransferBack env s).1.permissionsResult = s.permissionsResult ∧
     (handleTransferBack env s).1.permissionsError = s.permissionsError ∧
     (handleTransferBack env s).1.transferPhase = s.transferPhase ∧
     (handleTransferBack env s).1.transferResult = s.transferResult ∧
     (handleTransferBack env s).1.transferError = s.transferError) := by
  refine ⟨?_, ?_, ?_⟩
  · simp only [handleSetPermissions]
    unfold finishPermissions enterPermissions
    repeat' split
    all_goals exact ⟨rfl, rfl, rfl⟩
  · simp only [handleTransfer]
    unfold finishTransfer enterTransfer
    repeat' split
    all_goals exact ⟨rfl, rfl, rfl, rfl, rfl, rfl⟩
  · simp only [handleTransferBack]
    unfold finishTransferBack enterTransferBack
    repeat' split
    all_goals exact ⟨rfl, rfl, rfl, rfl, rfl, rfl, rfl, rfl, rfl⟩

/- ## Claim C9: the readContract proxy wrapper (single-step UI variant) -/

/-- A JavaScript thrown value as the wrapper observes it: an `Error`
object (with `name` and `message`), or any other value (represented by
its `String(error)` rendering, which is what the wrapper reads). -/
inductive Thrown
  | errObj (name message : String)
  | nonError (str : String)
deriving DecidableEq, Repr

/-- `error instanceof Error ? error.message : String(error)`. -/
def Thrown.messageOf : Thrown → String
  | .errObj _ m => m
  | .nonError s => s

/-- JavaScript `s.includes(pat)`: some contiguous run of `s` equals `pat`. -/
def jsIncludes (s pat : String) : Bool :=
  (List.range (s.data.length + 1)).any
    (fun i => (s.data.drop i).take pat.data.length == pat.data)

/-- The `readContract` interception installed by the Proxy over the raw
public client: pass resolutions through; on rejection, if the observed
message contains 'returned no data', throw a fresh `Error` named
`ContractFunctionZeroDataError` whose message prefixes the original;
rethrow every other rejection unchanged. -/
def wrapReadContract {V : Type} (underlying : Except Thrown V) : Except Thrown V :=
  match underlying with
  | .ok v => .ok v
  | .error t =>
    if jsIncludes t.messageOf "returned no data" then
      .error (.errObj "ContractFunctionZeroDataError"
        ("ContractFunctionZeroDataError: " ++ t.messageOf))
    else
      .error t

/-- C9: the wrapped `readContract` returns the underlying value on
resolution; on a rejection whose message contains 'returned no data' it
rejects with an Error named `ContractFunctionZeroDataError` whose
message is the original prefixed with 'ContractFunctionZeroDataError: ';
any other rejection is rethrown unchanged. -/
theorem c9_read_contract_wrapper (V : Type) (u : Except Thrown V) :
    (∀ v : V, u = .ok v → wrapReadContract u = .ok v) ∧
    (∀ t : Thrown, u = .error t → jsIncludes t.messageOf "returned no data" = true →
      wrapReadContract u = .error (.errObj "ContractFunctionZeroDataError"
        ("ContractFunctionZeroDataError: " ++ t.messageOf))) ∧
    (∀ t : Thrown, u = .error t → jsIncludes t.messageOf "returned no data" = false →
      wrapReadContract u = .error t) := by
  refine ⟨fun v h => ?_, fun t h hp => ?_, fun t h hp => ?_⟩
  · rw [h]
    rfl
  · subst h
    simp [wrapReadContract, hp]
  · subst h
    simp [wrapReadContract, hp]

/-- Witness for C9 at concrete outcomes: a resolution, a zero-data
rejection, and an unrelated rejection. -/
theorem c9_read_contract_wrapper_witness :
    wrapReadContract (Except.ok (5 : Nat)) = .ok 5 ∧
    wrapReadContract (V := Nat)
        (.error (.errObj "ContractFunctionExecutionError"
          "The contract function call returned no data (0x).")) =
      .error (.errObj "ContractFunctionZeroDataError"
        "ContractFunctionZeroDataError: The contract function call returned no data (0x).") ∧
    wrapReadContract (V := Nat) (.error (.errObj "Error" "insufficient funds")) =
      .error (.errObj "Error" "insufficient funds") := by
  refine ⟨?_, ?_, ?_⟩
  · exact (c9_read_contract_wrapper Nat (.ok 5)).1 5 rfl
  · exact ((c9_read_contract_wrapper Nat
      (.error (.errObj "ContractFunctionExecutionError"
        "The contract function call returned no data (0x)."))).2.1 _ rfl (by decide)).trans
      rfl
  · exact (c9_read_contract_wrapper Nat
      (.error (.errObj "Error" "insufficient funds"))).2.2 _ rfl (by decide)

/- ## Claim C10: the process.env polyfill -/

/-- The polyfill's rewrite of `process.env`, modelled as a partial map
from key to value (`none` stands for an absent or undefined-valued
key, which is what `??` falls through on): spread the pre-existing
entries, then set `RPC_URL` and `PRIVATE_KEY` to the pre-existing value
if defined, else the corresponding Vite variable if set, else `''`. -/
def polyfillProcessEnv (pre : String → Option String)
    (viteRpcUrl vitePrivateKey : Option String) : String → Option String :=
  fun key =>
    if key = "RPC_URL" then
      some ((pre "RPC_URL").getD (viteRpcUrl.getD ""))
    else if key = "PRIVATE_KEY" then
      some ((pre "PRIVATE_KEY").getD (vitePrivateKey.getD ""))
    else
      pre key

/-- C10: after the polyfill, `RPC_URL` and `PRIVATE_KEY` are always
defined strings chosen by the precedence pre-existing value, then Vite
variable, then empty string; every other key keeps its pre-existing
value. -/
theorem c10_process_env_polyfill (pre : String → Option String) (vr vk : Option String) :
    (∃ x, polyfillProcessEnv pre vr vk "RPC_URL" = some x) ∧
    (∃ x, polyfillProcessEnv pre vr vk "PRIVATE_KEY" = some x) ∧
    (∀ v, pre "RPC_URL" = some v → polyfillProcessEnv pre vr vk "RPC_URL" = some v) ∧
    (∀ v, pre "RPC_URL" = none → vr = some v →
      polyfillProcessEnv pre vr vk "RPC_URL" = some v) ∧
    (pre "RPC_URL" = none → vr = none →
      polyfillProcessEnv pre vr vk "RPC_URL" = some "") ∧
    (∀ v, pre "PRIVATE_KEY" = some v →
      polyfillProcessEnv pre vr vk "PRIVATE_KEY" = some v) ∧
    (∀ v, pre "PRIVATE_KEY" = none → vk = some v →
      polyfillProcessEnv pre vr vk "PRIVATE_KEY" = some v) ∧
    (pre "PRIVATE_KEY" = none → vk = none →
      polyfillProcessEnv pre vr vk "PRIVATE_KEY" = some "") ∧
    (∀ key, key ≠ "RPC_URL" → key ≠ "PRIVATE_KEY" →
      polyfillProcessEnv pre vr vk key = pre key) := by
  have hne : ("PRIVATE_KEY" : String) ≠ "RPC_URL" := by decide
  refine ⟨⟨(pre "RPC_URL").getD (vr.getD ""), ?_⟩,
    ⟨(pre "PRIVATE_KEY").getD (vk.getD ""), ?_⟩, fun v h => ?_, fun v h hv => ?_,
    fun h hv => ?_, fun v h => ?_, fun v h hv => ?_, fun h hv => ?_, fun key h1 h2 => ?_⟩
  · unfold polyfillProcessEnv
    rw [if_pos rfl]
  · unfold polyfillProcessEnv
    rw [if_neg hne, if_pos rfl]
  · unfold polyfillProcessEnv
    rw [if_pos rfl, h]
    rfl
  · unfold polyfillProcessEnv
    rw [if_pos rfl, h, hv]
    rfl
  · unfold polyfillProcessEnv
    rw [if_pos rfl, h, hv]
    rfl
  · unfold polyfillProcessEnv
    rw [if_neg hne, if_pos rfl, h]
    rfl
  · unfold polyfillProcessEnv
    rw [if_neg hne, if_pos rfl, h, hv]
    rfl
  · unfold polyfillProcessEnv
    rw [if_neg hne, if_pos rfl, h, hv]
    rfl
  · unfold polyfillProcessEnv
    rw [if_neg h1, if_neg h2]

/-- A pre-existing `process.env` with one unrelated key and no
`RPC_URL`/`PRIVATE_KEY`. -/
def samplePreEnv : String → Option String :=
  fun key => if key = "NODE_DEBUG" then some "on" else none

/-- Witness for C10: with `VITE_SAFE_PRIVATE_KEY` set and no pre-existing
values, `RPC_URL` falls back to the empty string, `PRIVATE_KEY` takes
the Vite value, and the unrelated key is preserved. -/
theorem c10_process_env_polyfill_witness :
    polyfillProcessEnv samplePreEnv none (some "0xkey") "RPC_URL" = some "" ∧
    polyfillProcessEnv samplePreEnv none (some "0xkey") "PRIVATE_KEY" = some "0xkey" ∧
    polyfillProcessEnv samplePreEnv none (some "0xkey") "NODE_DEBUG" = some "on" := by
  have h := c10_process_env_polyfill samplePreEnv none (some "0xkey")
  refine ⟨h.2.2.2.2.1 (by decide) rfl, h.2.2.2.2.2.2.1 "0xkey" (by decide) rfl, ?_⟩
  exact (h.2.2.2.2.2.2.2.2 "NODE_DEBUG" (by decide) (by decide)).trans (by decide)

end SafeOnboarding
